import Mathlib

/-!
Verification of bcbio/ngsalign/postalign.py: streaming post-alignment
de-duplication and sorting.  The Python module is shallowly embedded below:
pure command-line builders become Lean functions over a record of the
configuration fields the code reads, the loosely typed mark_duplicates
setting becomes an inductive of Python values, and the transactional
output behaviour (file_transaction, which lives elsewhere in the
repository) is modelled from the specification as an explicit function on
a list of existing filesystem paths.
-/

namespace Postalign

/-- Placeholder for the configuration error kind named in the specification. -/
inductive ConfigError
| mk
deriving DecidableEq, Repr

/-- A loosely typed Python configuration value, as the mark_duplicates
setting can hold booleans, strings or other scalars. -/
inductive PyVal
| pbool (b : Bool)
| pstr (s : String)
| pint (n : Int)
deriving DecidableEq, Repr

/-- Python truthiness for the values of PyVal: False, the empty string and
zero are falsy, everything else is truthy. -/
def pyTruthy : PyVal → Bool
| .pbool b => b
| .pstr s => !s.isEmpty
| .pint n => n != 0

/-- True exactly when the value is a Python string, embedding the
isinstance(dup_param, basestring) test. -/
def isString : PyVal → Bool
| .pstr _ => true
| _ => false

/-- The four pipeline strategies the tobam_cl branch structure selects. -/
inductive PipelineStrategy
| noDedupSort
| umiGroupedSort
| samblasterSplitDiscordant
| biobambamMarkdupSort
deriving DecidableEq, Repr

/-- Configuration fields read by postalign.py.  External collaborators
(datadict lookups, the reference contig counter, the structural caller
registry, the version manifest and program resolution) are modelled as
fields holding the values those lookups return. -/
structure Data where
  markDuplicates : Option PyVal
  umiFile : Option String
  refContigCount : Nat
  svcallers : List String
  numCores : Option Nat
  samtoolsCores : Option Nat
  samtoolsMemory : Option String
  alignSplit : Bool
  samblasterVersion : List Nat
  samtoolsProg : String
  samblasterProg : String
  sambambaProg : String
deriving DecidableEq, Repr

/-- Embeds check_dedup (postalign.py lines 166-174): read the
mark_duplicates setting with default True; a truthy string is normalized
to True with a logged compatibility warning (the Bool in the result);
every other value is returned unchanged.  The Python function can never
raise, so every branch returns ok; the Except wrapper records the error
channel the surrounding error taxonomy would use. -/
def check_dedup (d : Data) : Except ConfigError (PyVal × Bool) :=
  let dup := d.markDuplicates.getD (.pbool true)
  if pyTruthy dup && isString dup then .ok (.pbool true, true)
  else .ok (dup, false)

/-- Truthiness of the value check_dedup returns, as used by the branch
`if not do_dedup` in tobam_cl. -/
def doDedup (d : Data) : Bool :=
  match check_dedup d with
  | .ok (v, _) => pyTruthy v
  | .error _ => false

/-- Truthiness of the umi_file lookup in tobam_cl: a present, non-empty
path. -/
def umiSet : Option String → Bool
| none => false
| some s => !s.isEmpty

/-- Embeds too_many_contigs (postalign.py lines 47-51): the reference has
at least 32768 contigs, the samblaster hard limit.  The contig count of
the reference file is supplied by the external counter, modelled as the
refContigCount field. -/
def too_many_contigs (d : Data) : Bool :=
  decide (32768 ≤ d.refContigCount)

/-- Embeds need_sr_disc_reads (postalign.py lines 53-60): membership of
the fixed caller name lumpy in the configured structural callers. -/
def need_sr_disc_reads (d : Data) : Bool :=
  d.svcallers.contains "lumpy"

/-- Embeds the branch structure of tobam_cl (postalign.py lines 30-45)
as a pure strategy selector: no dedup, then UMI, then the paired
samblaster split/discordant path guarded by the contig limit, else
biobambam. -/
def tobam_cl_strategy (d : Data) (is_paired : Bool) : PipelineStrategy :=
  if !(doDedup d) then .noDedupSort
  else if umiSet d.umiFile then .umiGroupedSort
  else if is_paired && need_sr_disc_reads d && !(too_many_contigs d) then
    .samblasterSplitDiscordant
  else .biobambamMarkdupSort

/-- A memory amount paired with its unit suffix, the parsed form of
strings such as 2G or 512m. -/
structure MemSpec where
  amount : Nat
  unit : String
deriving DecidableEq, Repr

/-- Decimal value of a digit character list, accumulator style. -/
def digitsToNat (acc : Nat) : List Char → Nat
| [] => acc
| c :: cs => digitsToNat (acc * 10 + (c.toNat - 48)) cs

/-- Upper-case every character of a string, the embedding of the Python
str.upper call on the ascii memory strings involved, written on the
character list so that it evaluates by kernel reduction. -/
def strUpper (s : String) : String :=
  String.mk (s.data.map Char.toUpper)

/-- Parse a memory string into its leading decimal amount and the
remaining unit suffix; none when no leading digits exist. -/
def parseMemory (s : String) : Option MemSpec :=
  let digits := s.data.takeWhile Char.isDigit
  let rest := s.data.dropWhile Char.isDigit
  if digits.isEmpty then none
  else some ⟨digitsToNat 0 digits, String.mk rest⟩

/-- Modelled from the spec: config_utils.adjust_memory is repository code
that is not under src/.  Per the specification it divides the per-core
memory baseline by the downscale factor, rounding down, and a malformed
memory string fails fast with a ConfigError. -/
def adjust_memory (s : String) (downscale : Nat) : Except ConfigError String :=
  match parseMemory s with
  | none => .error .mk
  | some m => .ok (toString (m.amount / downscale) ++ m.unit)

/-- Embeds get_cores_memory (postalign.py lines 62-71): the core count is
the algorithm-level num_cores setting with default 1, and the memory is
the samtools resource memory baseline (default 2G) downscaled and then
upper-cased. -/
def get_cores_memory (d : Data) (downscale : Nat) : Except ConfigError (Nat × String) :=
  match adjust_memory (d.samtoolsMemory.getD "2G") downscale with
  | .error e => .error e
  | .ok mem => .ok (d.numCores.getD 1, strUpper mem)

/-- The cores computation as the specification words it for comparison
with the code: the resource-profile cores of the tool with a minimum of
one, superseded by the algorithm-level setting when that is present. -/
def coresFromSpec (d : Data) : Nat :=
  match d.numCores with
  | some n => n
  | none => max (d.samtoolsCores.getD 1) 1

/-- Component-wise comparison of version component lists, the order the
distutils LooseVersion class puts on parsed versions: compare entries
numerically left to right, a missing entry compares below a present one. -/
def listLe : List Nat → List Nat → Bool
| [], _ => true
| _ :: _, [] => false
| a :: as, b :: bs =>
  if a < b then true
  else if b < a then false
  else listLe as bs

/-- LooseVersion comparison v is at least w, on pre-parsed numeric dotted
versions.  The version manifest returning the string form is an external
collaborator; the samblasterVersion field holds the parsed components. -/
def versionGe (v w : List Nat) : Bool :=
  listLe w v

/-- Embeds the version gate of samblaster_dedup_sort (postalign.py lines
101-106): the -M compatibility flag is used exactly when the installed
samblaster version is at least 0.1.22 under LooseVersion comparison. -/
def samblaster_opts (version : List Nat) : String :=
  if versionGe version [0, 1, 22] then "-M" else ""

/-- Split a character list into stem and extension at the last dot, the
dot going with the extension; no dot means an empty extension. -/
def splitExtChars : List Char → List Char × List Char
| [] => ([], [])
| c :: cs =>
  if ('.' : Char) ∈ cs then
    let p := splitExtChars cs
    (c :: p.1, p.2)
  else if c = '.' then ([], c :: cs)
  else (c :: cs, [])

/-- Modelled from the spec: utils.splitext_plus is repository code that is
not under src/; it splits a path into the stem and the extension at the
final extension boundary, like os.path.splitext. -/
def splitext_plus (s : String) : String × String :=
  let p := splitExtChars s.data
  (String.mk p.1, String.mk p.2)

/-- The temporary sort path derived in sam_to_sortbam_cl (postalign.py
line 80): the stem of the output path followed by -sorttmp. -/
def sortTmpFile (p : String) : String :=
  (splitext_plus p).1 ++ "-sorttmp"

/-- Embeds sam_to_sortbam_cl (postalign.py lines 73-83): a single samtools
sort stage reading the stream on stdin and writing the transacted output
path, with the temp path derived from the output stem. -/
def sam_to_sortbam_cl (d : Data) (tx_out_file : String) (name_sort : Bool := false) :
    Except ConfigError String :=
  match get_cores_memory d 2 with
  | .error e => .error e
  | .ok (cores, mem) =>
    let sort_flag := if name_sort then "-n" else ""
    .ok (d.samtoolsProg ++ " sort -@ " ++ toString cores ++ " -m " ++ mem ++ " "
      ++ sort_flag ++ " -T " ++ sortTmpFile tx_out_file ++ " -o " ++ tx_out_file
      ++ " /dev/stdin")

/-- The samtools sort stage template of samblaster_dedup_sort (postalign.py
lines 99-100), specialised to one of the three temp directories. -/
def samblasterSortStage (d : Data) (cores : Nat) (mem : String)
    (tmpBase dext out : String) : String :=
  d.samtoolsProg ++ " sort -@ " ++ toString cores ++ " -m " ++ mem
    ++ " -T " ++ tmpBase ++ "-" ++ dext ++ " -o " ++ out ++ " /dev/stdin"

/-- Embeds samblaster_dedup_sort (postalign.py lines 85-112): samblaster
annotates mate tags and marks duplicates, streaming split reads and
discordant pairs into two process-substitution side channels, each sorted
into its own transacted output, while the primary stream is converted and
sorted by sambamba into the main transacted output. -/
def samblaster_dedup_sort (d : Data) (tx_out_file tx_sr_file tx_disc_file : String) :
    Except ConfigError String :=
  match get_cores_memory d 3 with
  | .error e => .error e
  | .ok (cores, mem) =>
    let tmpBase := (splitext_plus tx_out_file).1 ++ "-sorttmp"
    let sort_opt := if d.alignSplit then "-N" else ""
    let opts := samblaster_opts d.samblasterVersion
    let splitter_cmd := samblasterSortStage d cores mem tmpBase "spl" tx_sr_file
    let discordant_cmd := samblasterSortStage d cores mem tmpBase "disc" tx_disc_file
    let dedup_cmd := d.samtoolsProg ++ " view -b -S -u - | " ++ d.sambambaProg
      ++ " sort " ++ sort_opt ++ " -t " ++ toString cores ++ " -m " ++ mem
      ++ " --tmpdir " ++ tmpBase ++ "-full -o " ++ tx_out_file ++ " /dev/stdin"
    .ok (d.samblasterProg ++ " --addMateTags " ++ opts ++ " --splitterFile >("
      ++ splitter_cmd ++ ") --discordantFile >(" ++ discordant_cmd ++ ") | "
      ++ dedup_cmd)

/-- Embeds the output path computation and branch structure of dedup_bam
(postalign.py lines 176-193): with de-duplication enabled the result path
inserts -dedup before the extension and the biobambam pipeline runs (the
Bool); with it disabled the input path is returned unchanged and nothing
runs. -/
def dedup_bam (in_bam : String) (d : Data) : String × Bool :=
  match check_dedup d with
  | .ok (v, _) =>
    if pyTruthy v then
      let p := splitext_plus in_bam
      (p.1 ++ "-dedup" ++ p.2, true)
    else (in_bam, false)
  | .error _ => (in_bam, false)

end Postalign

namespace Postalign

/-- Success or failure of executing the command a pipeline yields. -/
inductive Outcome
| ok
| err
deriving DecidableEq, Repr

/-- The temporary location a transaction writes in place of a final path. -/
def txTmpPath (final : String) : String :=
  "tx-tmpdir/" ++ final

/-- Modelled from the spec: file_transaction lives in
bcbio/distributed/transaction.py, repository code that is not under src/.
Each declared final path is written through a temporary path; on success
the temporary path is atomically promoted to the final name, and on any
failure the temporary path is removed and the final path is not created.
Nested transactions, as tobam_cl opens for the samblaster strategy, are
modelled by folding over the list of final paths: the filesystem is a
list of existing paths, each level creates its temporary path, runs the
inner levels, and then commits or rolls back. -/
def nested_tx (fs : List String) (finals : List String) (o : Outcome) : List String :=
  match finals with
  | [] => fs
  | f :: rest =>
    let tmp := txTmpPath f
    let inner := nested_tx (tmp :: fs) rest o
    match o with
    | .ok => f :: inner.erase tmp
    | .err => inner.erase tmp

/-- The final output paths whose transactions tobam_cl opens for a given
configuration: the main output always, plus the -sr and -disc side
outputs when the samblaster strategy is selected (postalign.py lines
32-43). -/
def tobam_cl_finals (d : Data) (is_paired : Bool) (out_file : String) : List String :=
  match tobam_cl_strategy d is_paired with
  | .samblasterSplitDiscordant =>
    [out_file, (splitext_plus out_file).1 ++ "-sr.bam",
      (splitext_plus out_file).1 ++ "-disc.bam"]
  | _ => [out_file]

/-- The filesystem after a tobam_cl invocation whose command execution had
the given outcome, under the transaction model. -/
def tobam_cl_fs (d : Data) (is_paired : Bool) (fs : List String)
    (out_file : String) (o : Outcome) : List String :=
  nested_tx fs (tobam_cl_finals d is_paired out_file) o

/-- A concrete configuration used to instantiate hypotheses of the
general theorems on small inputs. -/
def exampleData : Data :=
  { markDuplicates := some (.pbool true)
    umiFile := none
    refContigCount := 500
    svcallers := ["lumpy"]
    numCores := none
    samtoolsCores := none
    samtoolsMemory := some "2G"
    alignSplit := false
    samblasterVersion := [0, 1, 22]
    samtoolsProg := "samtools"
    samblasterProg := "samblaster"
    sambambaProg := "sambamba" }

/-- Appending the same string on the right is cancellative. -/
theorem string_append_right_cancel (a b t : String) (h : a ++ t = b ++ t) : a = b := by
  have hd : a.data ++ t.data = b.data ++ t.data := by
    have := congrArg String.data h
    simpa [String.data_append] using this
  cases a with
  | mk la =>
    cases b with
    | mk lb =>
      have : la = lb := by
        have hd2 : la ++ t.data = lb ++ t.data := hd
        exact List.append_cancel_right hd2
      simp [this]

/-- Splitting a character list at the last dot and re-appending the two
parts recovers the list. -/
theorem splitExtChars_join (cs : List Char) :
    (splitExtChars cs).1 ++ (splitExtChars cs).2 = cs := by
  induction cs with
  | nil => rfl
  | cons c cs ih =>
    by_cases hdot : ('.' : Char) ∈ cs
    · simp [splitExtChars, hdot, ih]
    · by_cases hc : c = '.'
      · simp [splitExtChars, hdot, hc]
      · simp [splitExtChars, hdot, hc]

/-- Re-appending the stem and the extension of splitext_plus recovers the
path. -/
theorem splitext_plus_join (s : String) :
    (splitext_plus s).1 ++ (splitext_plus s).2 = s := by
  cases s with
  | mk l =>
    show String.mk ((splitExtChars l).1 ++ (splitExtChars l).2) = String.mk l
    rw [splitExtChars_join]

/-- Characterization of the LooseVersion threshold comparison against
0.1.22 on three-component versions. -/
theorem listLe_threshold (a b c : Nat) :
    listLe [0, 1, 22] [a, b, c] = true ↔
      (0 < a ∨ (a = 0 ∧ (1 < b ∨ (b = 1 ∧ 22 ≤ c)))) := by
  simp only [listLe]
  split_ifs <;> simp <;> omega

/-- A failed execution rolls back every nested transaction, leaving the
filesystem unchanged. -/
theorem nested_tx_err (finals : List String) (fs : List String) :
    nested_tx fs finals .err = fs := by
  induction finals generalizing fs with
  | nil => rfl
  | cons f rest ih =>
    show (nested_tx (txTmpPath f :: fs) rest .err).erase (txTmpPath f) = fs
    rw [ih, List.erase_cons_head]

end Postalign

namespace Postalign

/-- C1: with deduplication enabled, no UMI file, paired reads and lumpy
among the structural callers, tobam_cl selects the samblaster
split/discordant pipeline exactly when the reference contig count is
below 32768, and otherwise the biobambam mark-duplicates-and-sort
pipeline. -/
theorem tobam_cl_samblaster_iff_contigs (d : Data)
    (h1 : doDedup d = true) (h2 : d.umiFile = none)
    (h3 : need_sr_disc_reads d = true) :
    (tobam_cl_strategy d true = .samblasterSplitDiscordant ↔ d.refContigCount < 32768)
    ∧ (32768 ≤ d.refContigCount →
        tobam_cl_strategy d true = .biobambamMarkdupSort) := by
  have hu : umiSet d.umiFile = false := by rw [h2]; rfl
  by_cases hc : 32768 ≤ d.refContigCount
  · have ht : too_many_contigs d = true := by
      simp [too_many_contigs]; omega
    constructor
    · simp [tobam_cl_strategy, h1, hu, h3, ht]
      omega
    · intro _
      simp [tobam_cl_strategy, h1, hu, h3, ht]
  · have ht : too_many_contigs d = false := by
      simp [too_many_contigs]; omega
    constructor
    · simp [tobam_cl_strategy, h1, hu, h3, ht]
      omega
    · intro h
      omega

/-- Witness instantiating the C1 theorem on a concrete configuration. -/
theorem tobam_cl_samblaster_iff_contigs_witness :
    (tobam_cl_strategy exampleData true = .samblasterSplitDiscordant
      ↔ exampleData.refContigCount < 32768)
    ∧ (32768 ≤ exampleData.refContigCount →
        tobam_cl_strategy exampleData true = .biobambamMarkdupSort) :=
  tobam_cl_samblaster_iff_contigs exampleData (by decide) rfl (by decide)

/-- C5: with the mark_duplicates setting explicitly false, tobam_cl
selects the plain no-dedup sort pipeline whatever the other fields are. -/
theorem tobam_cl_no_dedup_sort (d : Data) (p : Bool)
    (h : d.markDuplicates = some (.pbool false)) :
    tobam_cl_strategy d p = .noDedupSort := by
  have hd : doDedup d = false := by
    simp [doDedup, check_dedup, h, pyTruthy, isString]
  simp [tobam_cl_strategy, hd]

/-- Witness instantiating the C5 theorem on a concrete configuration. -/
theorem tobam_cl_no_dedup_sort_witness :
    tobam_cl_strategy { exampleData with markDuplicates := some (.pbool false) } true
      = .noDedupSort :=
  tobam_cl_no_dedup_sort { exampleData with markDuplicates := some (.pbool false) }
    true rfl

/-- C6: with deduplication enabled and a UMI file set, tobam_cl selects
the UMI grouped sort pipeline, even for paired input with structural
callers configured: the UMI branch precedes the samblaster branch. -/
theorem tobam_cl_umi_precedence (d : Data) (p : Bool) (u : String)
    (h1 : doDedup d = true) (h2 : d.umiFile = some u) (h3 : u ≠ "") :
    tobam_cl_strategy d p = .umiGroupedSort := by
  have hu : umiSet d.umiFile = true := by
    rw [h2]
    cases he : u.isEmpty
    · simp [umiSet, he]
    · exact absurd (by simpa [String.isEmpty_iff] using he) h3
  simp [tobam_cl_strategy, h1, hu]

/-- Witness instantiating the C6 theorem on a concrete paired
configuration with lumpy configured and a UMI file present. -/
theorem tobam_cl_umi_precedence_witness :
    tobam_cl_strategy { exampleData with umiFile := some "umis.fq.gz" } true
      = .umiGroupedSort :=
  tobam_cl_umi_precedence { exampleData with umiFile := some "umis.fq.gz" }
    true "umis.fq.gz" (by decide) rfl (by decide)

/-- C4 counterexample: the string zzz-unknown is not a recognized legacy
dedup tool name, yet check_dedup normalizes it to True with a warning and
does not produce a ConfigError, refuting the claim that unrecognized
non-boolean values fail. -/
theorem check_dedup_unknown_string_no_error :
    check_dedup { exampleData with markDuplicates := some (.pstr "zzz-unknown") }
      = .ok (.pbool true, true)
    ∧ check_dedup { exampleData with markDuplicates := some (.pstr "zzz-unknown") }
      ≠ .error .mk := by
  have h1 : check_dedup { exampleData with markDuplicates := some (.pstr "zzz-unknown") }
      = .ok (.pbool true, true) := rfl
  refine ⟨h1, fun h => ?_⟩
  rw [h1] at h
  exact Except.noConfusion h

/-- C4 amended: every truthy string value, recognized or not, is
normalized to True with a compatibility warning, every non-string value
is returned unchanged without a warning, and no ConfigError is ever
raised. -/
theorem check_dedup_amended :
    (∀ (d : Data) (s : String), d.markDuplicates = some (.pstr s) → s ≠ "" →
      check_dedup d = .ok (.pbool true, true))
    ∧ (∀ (d : Data) (v : PyVal), d.markDuplicates = some v → isString v = false →
      check_dedup d = .ok (v, false)) := by
  constructor
  · intro d s h hne
    have he : s.isEmpty = false := by
      cases he : s.isEmpty
      · rfl
      · exact absurd (by simpa [String.isEmpty_iff] using he) hne
    simp [check_dedup, h, pyTruthy, isString, he]
  · intro d v h hv
    simp [check_dedup, h, hv]

/-- Witness instantiating the C4 amended theorem on a legacy string and
on an integer value. -/
theorem check_dedup_amended_witness :
    check_dedup { exampleData with markDuplicates := some (.pstr "samtools") }
      = .ok (.pbool true, true)
    ∧ check_dedup { exampleData with markDuplicates := some (.pint 5) }
      = .ok (.pint 5, false) :=
  ⟨check_dedup_amended.1 { exampleData with markDuplicates := some (.pstr "samtools") }
      "samtools" rfl (by decide),
   check_dedup_amended.2 { exampleData with markDuplicates := some (.pint 5) }
      (.pint 5) rfl rfl⟩

/-- Configuration exhibiting the C3 counterexample: the samtools resource
profile requests three cores while no algorithm-level num_cores setting
is present. -/
def coresCounterData : Data :=
  { exampleData with samtoolsCores := some 3, numCores := none }

/-- C3 counterexample: with a profile of three cores and no
algorithm-level setting the code returns one core, not the profile value
the claim requires. -/
theorem get_cores_profile_ignored :
    get_cores_memory coresCounterData 2 = .ok (1, "1G")
    ∧ coresFromSpec coresCounterData = 3
    ∧ (1 : Nat) ≠ 3 := by
  refine ⟨rfl, rfl, by decide⟩

/-- C3 amended: the cores value is the algorithm-level num_cores setting
when present and one otherwise; the resource-profile cores of the tool
are never consulted. -/
theorem get_cores_memory_cores_amended (d : Data) (ds : Nat)
    (cores : Nat) (mem : String)
    (h : get_cores_memory d ds = .ok (cores, mem)) :
    cores = d.numCores.getD 1 := by
  unfold get_cores_memory at h
  cases hm : adjust_memory (d.samtoolsMemory.getD "2G") ds with
  | error e => rw [hm] at h; exact absurd h (by simp)
  | ok m =>
    rw [hm] at h
    have h2 := Except.ok.inj h
    exact (congrArg Prod.fst h2).symm

/-- Witness instantiating the C3 amended theorem on a concrete
configuration. -/
theorem get_cores_memory_cores_amended_witness :
    (1 : Nat) = exampleData.numCores.getD 1 :=
  get_cores_memory_cores_amended exampleData 2 1 "1G" rfl

/-- Configuration exhibiting the C7 counterexample: a lower-case memory
baseline of 512m. -/
def memCounterData : Data :=
  { exampleData with samtoolsMemory := some "512m" }

/-- C7 counterexample: downscaling the 512m baseline by one yields 512M,
which differs from the original baseline because the code upper-cases the
unit, refuting the downscale-by-one identity. -/
theorem memory_downscale_one_not_identity :
    get_cores_memory memCounterData 1 = .ok (1, "512M")
    ∧ memCounterData.samtoolsMemory = some "512m"
    ∧ ("512M" : String) ≠ "512m" := by
  refine ⟨rfl, rfl, by decide⟩

/-- C7 amended: the planner is a deterministic function of the
configuration and downscale factor; the memory equals the baseline
(default 2G) with its amount divided by the downscale factor, rounding
down, and the unit suffix upper-cased; with a downscale factor of one the
memory is the baseline with its unit upper-cased, which equals the
original baseline only when the baseline is already upper-case. -/
theorem get_cores_memory_formula :
    (∀ (d : Data) (ds : Nat), get_cores_memory d ds = get_cores_memory d ds)
    ∧ (∀ (d : Data) (ds : Nat) (m : MemSpec),
        parseMemory (d.samtoolsMemory.getD "2G") = some m →
        get_cores_memory d ds
          = .ok (d.numCores.getD 1, strUpper (toString (m.amount / ds) ++ m.unit)))
    ∧ (∀ (d : Data) (m : MemSpec),
        parseMemory (d.samtoolsMemory.getD "2G") = some m →
        get_cores_memory d 1
          = .ok (d.numCores.getD 1, strUpper (toString m.amount ++ m.unit))) := by
  have hform : ∀ (d : Data) (ds : Nat) (m : MemSpec),
      parseMemory (d.samtoolsMemory.getD "2G") = some m →
      get_cores_memory d ds
        = .ok (d.numCores.getD 1, strUpper (toString (m.amount / ds) ++ m.unit)) := by
    intro d ds m h
    unfold get_cores_memory adjust_memory
    rw [h]
  refine ⟨fun d ds => rfl, hform, ?_⟩
  intro d m h
  have h1 := hform d 1 m h
  simpa [Nat.div_one] using h1

/-- Witness instantiating the C7 amended theorem on the default 2G
baseline with downscale factor two. -/
theorem get_cores_memory_formula_witness :
    get_cores_memory exampleData 2
      = .ok (exampleData.numCores.getD 1, strUpper (toString (2 / 2 : Nat) ++ "G")) :=
  get_cores_memory_formula.2.1 exampleData 2 ⟨2, "G"⟩ rfl

/-- C8: the -M compatibility flag is selected exactly when the installed
samblaster version reaches 0.1.22 under component-wise numeric
comparison; version 0.1.3 does not qualify even though the string 0.1.3
is lexicographically above 0.1.22, and version 0.1.22 qualifies even
though its string is lexicographically below 0.1.3. -/
theorem samblaster_M_flag_semantic_version :
    (∀ a b c : Nat, samblaster_opts [a, b, c] = "-M" ↔
      (0 < a ∨ (a = 0 ∧ (1 < b ∨ (b = 1 ∧ 22 ≤ c)))))
    ∧ samblaster_opts [0, 1, 22] = "-M"
    ∧ samblaster_opts [0, 1, 3] = ""
    ∧ (∃ pre s1 s2 : String, ∃ c1 c2 : Char,
        ("0.1.22" : String) = pre ++ String.mk [c1] ++ s1
        ∧ ("0.1.3" : String) = pre ++ String.mk [c2] ++ s2
        ∧ c1 < c2) := by
  refine ⟨?_, by decide, by decide,
    ⟨"0.1.", "2", "", '2', '3', by decide, by decide, by decide⟩⟩
  intro a b c
  by_cases h : listLe [0, 1, 22] [a, b, c] = true
  · have hp := (listLe_threshold a b c).mp h
    simp [samblaster_opts, versionGe, h, hp]
  · have hb : listLe [0, 1, 22] [a, b, c] = false := by
      cases hv : listLe [0, 1, 22] [a, b, c]
      · rfl
      · exact absurd hv h
    have hnp : ¬(0 < a ∨ (a = 0 ∧ (1 < b ∨ (b = 1 ∧ 22 ≤ c)))) :=
      fun hq => h ((listLe_threshold a b c).mpr hq)
    simp [samblaster_opts, versionGe, hb]
    omega

/-- C9 counterexample: the output paths out.bam and out.cram differ but
share the stem out, so the derived temp paths collide, refuting the
claim that different output paths always give different temp names. -/
theorem sort_tmp_collision :
    sortTmpFile "out.bam" = sortTmpFile "out.cram"
    ∧ ("out.bam" : String) ≠ "out.cram" := by
  refine ⟨rfl, by decide⟩

/-- C9 amended: the no-dedup sort command embeds a temp path equal to the
output stem followed by -sorttmp, so the temp name contains the stem, and
two invocations whose output paths have different stems always get
different temp names; paths sharing a stem may collide. -/
theorem sort_tmp_stem_derivation :
    (∀ (d : Data) (p cmd : String), sam_to_sortbam_cl d p false = .ok cmd →
      ∃ t1 t2 : String, cmd = t1 ++ sortTmpFile p ++ t2)
    ∧ (∀ p : String, sortTmpFile p = (splitext_plus p).1 ++ "-sorttmp")
    ∧ (∀ p q : String, (splitext_plus p).1 ≠ (splitext_plus q).1 →
        sortTmpFile p ≠ sortTmpFile q) := by
  refine ⟨?_, fun p => rfl, ?_⟩
  · intro d p cmd h
    unfold sam_to_sortbam_cl at h
    cases hm : get_cores_memory d 2 with
    | error e => rw [hm] at h; exact absurd h (by simp)
    | ok cm =>
      rw [hm] at h
      have h2 := (Except.ok.inj h).symm
      refine ⟨d.samtoolsProg ++ " sort -@ " ++ toString cm.1 ++ " -m " ++ cm.2
        ++ " " ++ (if false = true then "-n" else "") ++ " -T ",
        " -o " ++ p ++ " /dev/stdin", ?_⟩
      rw [h2]
      simp [String.append_assoc]
  · intro p q hpq h
    exact hpq (string_append_right_cancel _ _ "-sorttmp" h)

/-- Witness instantiating the C9 amended theorem: the concrete no-dedup
command for out.bam splits around the derived temp name, and the paths
a.bam and b.bam give different temp names. -/
theorem sort_tmp_stem_derivation_witness :
    (∃ t1 t2 : String,
      "samtools sort -@ 1 -m 1G  -T out-sorttmp -o out.bam /dev/stdin"
        = t1 ++ sortTmpFile "out.bam" ++ t2)
    ∧ sortTmpFile "a.bam" ≠ sortTmpFile "b.bam" :=
  ⟨sort_tmp_stem_derivation.1 exampleData "out.bam" _ rfl,
   sort_tmp_stem_derivation.2.2 "a.bam" "b.bam" (by decide)⟩

/-- C2: under the transaction model, a failed pipeline execution leaves
the filesystem exactly as it was: no declared final path appears that was
not already present, and the temporary paths of the opened transactions
are gone. -/
theorem tobam_cl_failure_atomicity (d : Data) (p : Bool)
    (fs : List String) (out : String) :
    tobam_cl_fs d p fs out .err = fs
    ∧ (∀ q : String, q ∈ tobam_cl_fs d p fs out .err ↔ q ∈ fs)
    ∧ (∀ f : String, f ∈ tobam_cl_finals d p out → txTmpPath f ∉ fs →
        txTmpPath f ∉ tobam_cl_fs d p fs out .err) := by
  have he : tobam_cl_fs d p fs out .err = fs :=
    nested_tx_err (tobam_cl_finals d p out) fs
  refine ⟨he, fun q => by rw [he], fun f _ hnf => by rw [he]; exact hnf⟩

/-- Witness instantiating the C2 theorem on a concrete samblaster-strategy
configuration with one pre-existing file. -/
theorem tobam_cl_failure_atomicity_witness :
    tobam_cl_fs exampleData true ["existing.txt"] "out.bam" .err = ["existing.txt"]
    ∧ txTmpPath "out.bam" ∉ tobam_cl_fs exampleData true ["existing.txt"] "out.bam" .err :=
  ⟨(tobam_cl_failure_atomicity exampleData true ["existing.txt"] "out.bam").1,
   (tobam_cl_failure_atomicity exampleData true ["existing.txt"] "out.bam").2.2
     "out.bam" (by decide) (by decide)⟩

/-- C10: with de-duplication disabled dedup_bam returns the input path
unchanged and runs nothing, and with it enabled the result inserts -dedup
before the extension, giving a path distinct from the input. -/
theorem dedup_bam_path_behavior (in_bam : String) (d : Data) :
    (doDedup d = false → dedup_bam in_bam d = (in_bam, false))
    ∧ (doDedup d = true →
        dedup_bam in_bam d
          = ((splitext_plus in_bam).1 ++ "-dedup" ++ (splitext_plus in_bam).2, true)
        ∧ (dedup_bam in_bam d).1 ≠ in_bam) := by
  cases hcd : check_dedup d with
  | error e =>
    exact absurd hcd (by simp [check_dedup]; split <;> simp)
  | ok vw =>
    have hdd : doDedup d = pyTruthy vw.1 := by
      simp [doDedup, hcd]
    constructor
    · intro hf
      rw [hdd] at hf
      simp [dedup_bam, hcd, hf]
    · intro ht
      rw [hdd] at ht
      have hval : dedup_bam in_bam d
          = ((splitext_plus in_bam).1 ++ "-dedup" ++ (splitext_plus in_bam).2, true) := by
        simp [dedup_bam, hcd, ht]
      refine ⟨hval, ?_⟩
      rw [hval]
      intro habs
      have habs2 : (splitext_plus in_bam).1 ++ "-dedup" ++ (splitext_plus in_bam).2
          = in_bam := habs
      have hj : (splitext_plus in_bam).1 ++ (splitext_plus in_bam).2 = in_bam :=
        splitext_plus_join in_bam
      have l1 := congrArg String.length habs2
      have l2 := congrArg String.length hj
      have l3 : ("-dedup" : String).length = 6 := rfl
      simp [String.length_append] at l1 l2
      omega

/-- Witness instantiating the C10 theorem with de-duplication enabled and
disabled on a concrete input path. -/
theorem dedup_bam_path_behavior_witness :
    dedup_bam "in.bam" exampleData
      = ((splitext_plus "in.bam").1 ++ "-dedup" ++ (splitext_plus "in.bam").2, true)
    ∧ (dedup_bam "in.bam" exampleData).1 ≠ "in.bam"
    ∧ dedup_bam "in.bam" { exampleData with markDuplicates := some (.pbool false) }
      = ("in.bam", false) :=
  ⟨((dedup_bam_path_behavior "in.bam" exampleData).2 (by decide)).1,
   ((dedup_bam_path_behavior "in.bam" exampleData).2 (by decide)).2,
   (dedup_bam_path_behavior "in.bam"
     { exampleData with markDuplicates := some (.pbool false) }).1 (by decide)⟩

end Postalign
